import Mathlib

/-!
Shallow embedding of `src/tokenERC20.js` (a Hyperledger Fabric ERC20-style
token chaincode) in Lean 4.

Modelling conventions:

* JavaScript numbers are modelled as exact integers plus NaN
  (`JSNum := Option Int`, `none` = NaN).  This is the exact-arithmetic
  model of JS numbers, valid on the safe-integer range; IEEE rounding is
  not modelled.
* The ledger stores byte strings.  Every value the contract writes is
  either `Buffer.from(x.toString())` for a number `x` (constructor
  `StoredVal.num`), the string `"[object Promise]"` (the `toString` of an
  un-awaited `Promise`, constructor `StoredVal.promiseStr` — see `Mint`
  and `Burn`, whose `this.add`/`this.sub` calls lack `await`), or a raw
  string (constructor `StoredVal.raw`, used for the metadata fields).
* Composite keys `(prefix, [addr])` are modelled by keeping one
  association list per prefix in `LedgerState`; the singleton keys
  (`name`, `symbol`, `decimals`, `totalSupply`) are separate fields.
  Fabric's `getState` on a missing key returns an empty byte array; the
  contract always tests `!bytes || bytes.length === 0`, modelled by
  `bytesEmpty`.
* Transaction-history values are stored as `JSON.stringify` of an array
  of records and parsed back with `JSON.parse`; since JSON round-trips,
  histories are kept structured as `List TxRecord`.
* A thrown `Error(msg)` is `Except.error msg`.  Fabric discards the whole
  write set of a failed invocation, so operations return
  `Except String LedgerState`: an error result carries no state change.
* Operations read committed state and only observe their own writes
  through the states threaded explicitly here, mirroring the source's
  read-before-write ordering (no operation reads a key it already wrote
  in the same invocation; `Transfer` writes the same balance key twice,
  where the second write wins, as in Fabric's write set).
-/

/-- A JavaScript number in the exact-integer model: `none` is NaN. -/
abbrev JSNum := Option Int

/-- JS `+` on numbers (NaN-propagating). -/
def jadd : JSNum → JSNum → JSNum
  | some a, some b => some (a + b)
  | _, _ => none

/-- JS `-` on numbers (NaN-propagating). -/
def jsub : JSNum → JSNum → JSNum
  | some a, some b => some (a - b)
  | _, _ => none

/-- JS strict equality `===` on numbers: `NaN === x` is always false. -/
def jseq : JSNum → JSNum → Bool
  | some a, some b => a == b
  | _, _ => false

/-- JS `<` on numbers: any comparison with NaN is false. -/
def jlt : JSNum → JSNum → Bool
  | some a, some b => a < b
  | _, _ => false

/-- JS `<=` on numbers: any comparison with NaN is false. -/
def jle : JSNum → JSNum → Bool
  | some a, some b => a ≤ b
  | _, _ => false

/-- Value of a maximal run of decimal digits, most significant first. -/
def digitsToNat (ds : List Char) : Nat :=
  ds.foldl (fun a c => 10 * a + (c.toNat - 48)) 0

/-- Parse the maximal leading run of decimal digits; `none` if there is none. -/
def parseLeadingDigits (cs : List Char) : Option Nat :=
  let ds := cs.takeWhile Char.isDigit
  if ds.isEmpty then none else some (digitsToNat ds)

/-- Modelled JS builtin: `parseInt(s)` with no radix argument, restricted to
the decimal forms that occur in this contract — leading whitespace is
skipped, an optional sign is read, then the maximal run of decimal digits;
NaN (`none`) if no digit follows.  (The `0x` hexadecimal prefix of the real
builtin is not modelled; no input of interest starts with it.) -/
def jsParseInt (s : String) : JSNum :=
  match s.toList.dropWhile Char.isWhitespace with
  | '-' :: rest => (parseLeadingDigits rest).map (fun n => -(n : Int))
  | '+' :: rest => (parseLeadingDigits rest).map (fun n => (n : Int))
  | cs => (parseLeadingDigits cs).map (fun n => (n : Int))

/-- JS `toString` of a number (`NaN` prints as `"NaN"`). -/
def jsNumToString : JSNum → String
  | none => "NaN"
  | some n => toString n

/-- A byte string stored in the ledger, kept symbolic where the contract
writes a canonical encoding. -/
inductive StoredVal
  /-- `Buffer.from(x.toString())` for an actual number `x`. -/
  | num (n : Int)
  /-- The string `"[object Promise]"`: `toString` of an un-awaited Promise. -/
  | promiseStr
  /-- Any other raw string (metadata fields, arbitrary pre-existing state). -/
  | raw (s : String)
  deriving DecidableEq, Repr

/-- Store a computed JS number, i.e. `Buffer.from(x.toString())`. -/
def storeNum : JSNum → StoredVal
  | some n => .num n
  | none => .raw "NaN"

/-- `parseInt(bytes.toString())` for a stored value.  `parseInt` of the
canonical decimal string of an integer is that integer; `"[object Promise]"`
and `"NaN"` parse to NaN. -/
def parseStored : StoredVal → JSNum
  | .num n => some n
  | .promiseStr => none
  | .raw s => jsParseInt s

/-- `parseInt(bytes.toString())` where the read may have returned the empty
byte array (`parseInt("")` is NaN). -/
def parseStateInt : Option StoredVal → JSNum
  | none => none
  | some v => parseStored v

/-- The contract's `!bytes || bytes.length === 0` test on a read result. -/
def bytesEmpty : Option StoredVal → Bool
  | none => true
  | some (.raw s) => s = ""
  | some _ => false

/-- `bytes.toString()` of a read result. -/
def storedToString : Option StoredVal → String
  | none => ""
  | some (.num n) => toString n
  | some .promiseStr => "[object Promise]"
  | some (.raw s) => s

/-- One entry of a per-account transaction history
(`{from, to, value, time}`; `value` holds the raw string that was passed). -/
structure TxRecord where
  «from» : String
  «to» : String
  value : String
  time : String
  deriving DecidableEq, Repr

/-- A `Transfer` event emitted via `ctx.stub.setEvent`. -/
structure Event where
  name : String
  «from» : String
  «to» : String
  value : JSNum
  deriving DecidableEq, Repr

/-- The invocation context: caller identity, caller MSP (organization) and
the transaction timestamp (as the string the contract derives from it). -/
structure Ctx where
  clientID : String
  mspID : String
  time : String
  deriving DecidableEq, Repr

/-- `aget l k`: first value stored under key `k` (Fabric `getState` on the
composite key). -/
def aget {α : Type} : List (String × α) → String → Option α
  | [], _ => none
  | (k', v') :: t, k => if k' = k then some v' else aget t k

/-- `aput l k v`: overwrite the first binding of `k` (Fabric `putState`). -/
def aput {α : Type} : List (String × α) → String → α → List (String × α)
  | [], k, v => [(k, v)]
  | (k', v') :: t, k, v => if k' = k then (k', v) :: t else (k', v') :: aput t k v

/-- The ledger state visible to the contract: the four singleton keys and
the two composite-key families (`balance.*`, `transactionData.*`). -/
structure LedgerState where
  name : Option StoredVal
  symbol : Option StoredVal
  decimals : Option StoredVal
  totalSupply : Option StoredVal
  balances : List (String × StoredVal)
  txData : List (String × List TxRecord)
  deriving DecidableEq, Repr

/-- The ledger before any invocation. -/
def emptyLedger : LedgerState :=
  { name := none, symbol := none, decimals := none, totalSupply := none
    balances := [], txData := [] }

/-- Sum of all stored account balances, read back as JS numbers
(NaN-propagating, as JS addition is). -/
def sumBalances : List (String × StoredVal) → JSNum
  | [] => some 0
  | (_, v) :: t => jadd (parseStored v) (sumBalances t)

/-- The conservation invariant as a JS-observable check:
`parseInt(totalSupply) === sum of parseInt of every balance`. -/
def conservationJS (st : LedgerState) : Bool :=
  jseq (parseStateInt st.totalSupply) (sumBalances st.balances)

/-- Error message of `CheckInitialized`. -/
def errNotInitialized : String :=
  "contract options need to be set before calling any function, call Initialize() to initialize contract"

/-- `CheckInitialized(ctx)`: throws unless the `name` key holds a
non-empty value. -/
def CheckInitialized (st : LedgerState) : Except String Unit :=
  if bytesEmpty st.name then .error errNotInitialized else .ok ()

/-- `add(a, b)`: overflow-checked addition (round-trip identity).  In the
exact-integer model the check only fails when an operand is NaN. -/
def add (a b : JSNum) : Except String JSNum :=
  let c := jadd a b
  if !(jseq a (jsub c b)) || !(jseq b (jsub c a)) then
    .error ("Math: addition overflow occurred " ++ jsNumToString a ++ " + " ++ jsNumToString b)
  else .ok c

/-- `sub(a, b)`: overflow-checked subtraction (round-trip identity).  In the
exact-integer model the check only fails when an operand is NaN; in
particular a mathematically negative result passes. -/
def sub (a b : JSNum) : Except String JSNum :=
  let c := jsub a b
  if !(jseq a (jadd c b)) || !(jseq b (jsub a c)) then
    .error ("Math: subtraction overflow occurred " ++ jsNumToString a ++ " - " ++ jsNumToString b)
  else .ok c

namespace TokenERC20Contract

/-- `signup(ctx, userAddress)` (source lines 26–47): after the
initialization gate, reads the account's balance (defaulting to 0 when the
read is empty) and writes it back. -/
def signup (_ctx : Ctx) (st : LedgerState) (userAddress : String) :
    Except String LedgerState :=
  match CheckInitialized st with
  | .error e => .error e
  | .ok _ =>
    let userCurrentBalanceBytes := aget st.balances userAddress
    let userCurrentBalance : JSNum :=
      if bytesEmpty userCurrentBalanceBytes then some 0
      else parseStateInt userCurrentBalanceBytes
    .ok { st with balances := aput st.balances userAddress (storeNum userCurrentBalance) }

/-- `TokenName(ctx)` (source lines 59–67). -/
def TokenName (_ctx : Ctx) (st : LedgerState) : Except String String :=
  match CheckInitialized st with
  | .error e => .error e
  | .ok _ => .ok (storedToString st.name)

/-- `Symbol(ctx)` (source lines 76–83). -/
def Symbol (_ctx : Ctx) (st : LedgerState) : Except String String :=
  match CheckInitialized st with
  | .error e => .error e
  | .ok _ => .ok (storedToString st.symbol)

/-- `Decimals(ctx)` (source lines 93–101). -/
def Decimals (_ctx : Ctx) (st : LedgerState) : Except String JSNum :=
  match CheckInitialized st with
  | .error e => .error e
  | .ok _ => .ok (parseStateInt st.decimals)

/-- `TotalSupply(ctx)` (source lines 110–118): after the initialization
gate, `parseInt` of whatever the read returned — there is no absence check,
so a missing record yields NaN, not an error. -/
def TotalSupply (_ctx : Ctx) (st : LedgerState) : Except String JSNum :=
  match CheckInitialized st with
  | .error e => .error e
  | .ok _ => .ok (parseStateInt st.totalSupply)

/-- `BalanceOf(ctx, owner)` (source lines 128–142). -/
def BalanceOf (_ctx : Ctx) (st : LedgerState) (owner : String) :
    Except String JSNum :=
  match CheckInitialized st with
  | .error e => .error e
  | .ok _ =>
    let balanceBytes := aget st.balances owner
    if bytesEmpty balanceBytes then
      .error ("the account " ++ owner ++ " does not exist")
    else .ok (parseStateInt balanceBytes)

/-- `setFromTransactionData(ctx, from, to, value)` (source lines 265–301):
appends `{from, to, value, time}` under the **source** account's history. -/
def setFromTransactionData (ctx : Ctx) (st : LedgerState)
    («from» «to» value : String) : Except String LedgerState :=
  match CheckInitialized st with
  | .error e => .error e
  | .ok _ =>
    let newTransactionData : TxRecord :=
      { «from» := «from», «to» := «to», value := value, time := ctx.time }
    match aget st.txData «from» with
    | none =>
      .ok { st with txData := aput st.txData «from» [newTransactionData] }
    | some transactionData =>
      .ok { st with txData := aput st.txData «from» (transactionData ++ [newTransactionData]) }

/-- `setToTransactionData(ctx, from, to, value)` (source lines 304–338):
appends the same record shape under the **destination** account's history. -/
def setToTransactionData (ctx : Ctx) (st : LedgerState)
    («from» «to» value : String) : Except String LedgerState :=
  match CheckInitialized st with
  | .error e => .error e
  | .ok _ =>
    let newTransactionData : TxRecord :=
      { «from» := «from», «to» := «to», value := value, time := ctx.time }
    match aget st.txData «to» with
    | none =>
      .ok { st with txData := aput st.txData «to» [newTransactionData] }
    | some transactionData =>
      .ok { st with txData := aput st.txData «to» (transactionData ++ [newTransactionData]) }

/-- `setAdminTransactionData(ctx, to, value)` (source lines 341–377): note
the THREE parameters — appends `{from: 'admin', to, value, time}` under
key `to`. -/
def setAdminTransactionData (ctx : Ctx) (st : LedgerState)
    («to» value : String) : Except String LedgerState :=
  match CheckInitialized st with
  | .error e => .error e
  | .ok _ =>
    let newTransactionData : TxRecord :=
      { «from» := "admin", «to» := «to», value := value, time := ctx.time }
    match aget st.txData «to» with
    | none =>
      .ok { st with txData := aput st.txData «to» [newTransactionData] }
    | some transactionData =>
      .ok { st with txData := aput st.txData «to» (transactionData ++ [newTransactionData]) }

/-- `Transfer(ctx, to, value)` (source lines 145–202): moves `value` from
the caller's own account to `to`.  The history step at line 196 calls the
three-parameter `setAdminTransactionData` with the four arguments
`(ctx, clientAccountID, to, value)`; JavaScript drops the extra argument,
so inside the helper the `to` parameter is bound to `clientAccountID` and
the `value` parameter to `to`, and the amount is not recorded. -/
def Transfer (ctx : Ctx) (st : LedgerState) («to» value : String) :
    Except String LedgerState :=
  match CheckInitialized st with
  | .error e => .error e
  | .ok _ =>
    let clientAccountID := ctx.clientID
    let valueInt := jsParseInt value
    if jlt valueInt (some 0) then
      .error "transfer amount cannot be negative"
    else
      let fromCurrentBalanceBytes := aget st.balances clientAccountID
      if bytesEmpty fromCurrentBalanceBytes then
        .error ("the account " ++ clientAccountID ++ " no balance")
      else
        let fromCurrentBalance := parseStateInt fromCurrentBalanceBytes
        if jlt fromCurrentBalance valueInt then
          .error ("client account " ++ clientAccountID ++ " insufficient funds")
        else
          let toCurrentBalanceBytes := aget st.balances «to»
          if bytesEmpty toCurrentBalanceBytes then
            .error ("client account " ++ «to» ++ " no signup")
          else
            let toCurrentBalance := parseStateInt toCurrentBalanceBytes
            match sub fromCurrentBalance valueInt with
            | .error e => .error e
            | .ok fromUpdatedBalance =>
              match add toCurrentBalance valueInt with
              | .error e => .error e
              | .ok toUpdatedBalance =>
                let st1 := { st with
                  balances := aput st.balances clientAccountID (storeNum fromUpdatedBalance) }
                let st2 := { st1 with
                  balances := aput st1.balances «to» (storeNum toUpdatedBalance) }
                setAdminTransactionData ctx st2 clientAccountID «to»

/-- `TransferFrom(ctx, from, to, value)` (source lines 207–262): moves
`value` from `from` to `to`.  It performs no initialization gate of its
own; the gate is only reached inside the two history helpers, after the
balance writes. -/
def TransferFrom (ctx : Ctx) (st : LedgerState) («from» «to» value : String) :
    Except String LedgerState :=
  if «from» = «to» then
    .error "cannot transfer to and from same client account"
  else
    let valueInt := jsParseInt value
    if jlt valueInt (some 0) then
      .error "transfer amount cannot be negative"
    else
      let fromCurrentBalanceBytes := aget st.balances «from»
      if bytesEmpty fromCurrentBalanceBytes then
        .error ("client account " ++ «from» ++ " no balance")
      else
        let fromCurrentBalance := parseStateInt fromCurrentBalanceBytes
        if jlt fromCurrentBalance valueInt then
          .error ("client account " ++ «from» ++ " insufficient funds")
        else
          let toCurrentBalanceBytes := aget st.balances «to»
          if bytesEmpty toCurrentBalanceBytes then
            .error ("client account " ++ «to» ++ " no signup")
          else
            let toCurrentBalance := parseStateInt toCurrentBalanceBytes
            match sub fromCurrentBalance valueInt with
            | .error e => .error e
            | .ok fromUpdatedBalance =>
              match add toCurrentBalance valueInt with
              | .error e => .error e
              | .ok toUpdatedBalance =>
                let st1 := { st with
                  balances := aput st.balances «from» (storeNum fromUpdatedBalance) }
                let st2 := { st1 with
                  balances := aput st1.balances «to» (storeNum toUpdatedBalance) }
                match setFromTransactionData ctx st2 «from» «to» value with
                | .error e => .error e
                | .ok st3 => setToTransactionData ctx st3 «from» «to» value

/-- `getTransactionData(ctx, userAddress)` (source lines 380–394). -/
def getTransactionData (_ctx : Ctx) (st : LedgerState) (userAddress : String) :
    Except String (List TxRecord) :=
  match CheckInitialized st with
  | .error e => .error e
  | .ok _ =>
    match aget st.txData userAddress with
    | none => .error ("client account " ++ userAddress ++ " 沒有交易紀錄")
    | some transactionData => .ok transactionData

/-- `Initialize(ctx, name, symbol, decimals)` (source lines 408–427). -/
def Initialize (ctx : Ctx) (st : LedgerState)
    (name symbol decimals : String) : Except String LedgerState :=
  if ctx.mspID ≠ "Org1MSP" then
    .error "client is not authorized to initialize contract"
  else if !(bytesEmpty st.name) then
    .error "contract options are already set, client is not authorized to change them"
  else
    .ok { st with
      name := some (.raw name), symbol := some (.raw symbol),
      decimals := some (.raw decimals) }

/-- `Mint(ctx, amount)` (source lines 437–488).  The calls
`this.add(currentBalance, amountInt)` (line 466) and
`this.add(totalSupply, amountInt)` (line 479) lack `await`: the bound
value is a Promise object, and `Buffer.from(promise.toString())` stores
the string `"[object Promise]"` for both the minter's balance and the
total supply.  The event still carries the parsed amount. -/
def Mint (ctx : Ctx) (st : LedgerState) (amount : String) :
    Except String (LedgerState × Event) :=
  match CheckInitialized st with
  | .error e => .error e
  | .ok _ =>
    if ctx.mspID ≠ "Org1MSP" then
      .error "client is not authorized to mint new tokens"
    else
      let minter := ctx.clientID
      let amountInt := jsParseInt amount
      if jle amountInt (some 0) then
        .error "mint amount must be a positive integer"
      else
        let currentBalanceBytes := aget st.balances minter
        let _currentBalance : JSNum :=
          if bytesEmpty currentBalanceBytes then some 0
          else parseStateInt currentBalanceBytes
        let st1 := { st with balances := aput st.balances minter .promiseStr }
        let _totalSupply : JSNum :=
          if bytesEmpty st.totalSupply then some 0
          else parseStateInt st.totalSupply
        let st2 := { st1 with totalSupply := some .promiseStr }
        let transferEvent : Event :=
          { name := "Transfer", «from» := "0x0", «to» := minter, value := amountInt }
        .ok (st2, transferEvent)

/-- `Burn(ctx, amount)` (source lines 498–538).  Like `Mint`, the
`this.sub` calls at lines 520 and 529 lack `await`, so the stored balance
and total supply both become `"[object Promise]"`; the absence checks on
the balance and the supply still run first. -/
def Burn (ctx : Ctx) (st : LedgerState) (amount : String) :
    Except String (LedgerState × Event) :=
  match CheckInitialized st with
  | .error e => .error e
  | .ok _ =>
    if ctx.mspID ≠ "Org1MSP" then
      .error "client is not authorized to mint new tokens"
    else
      let minter := ctx.clientID
      let _amountInt := jsParseInt amount
      let currentBalanceBytes := aget st.balances minter
      if bytesEmpty currentBalanceBytes then
        .error "The balance does not exist"
      else
        let st1 := { st with balances := aput st.balances minter .promiseStr }
        if bytesEmpty st.totalSupply then
          .error "totalSupply does not exist."
        else
          let st2 := { st1 with totalSupply := some .promiseStr }
          let transferEvent : Event :=
            { name := "Transfer", «from» := minter, «to» := "0x0", value := jsParseInt amount }
          .ok (st2, transferEvent)

/-- `ClientAccountBalance(ctx)` (source lines 547–564). -/
def ClientAccountBalance (ctx : Ctx) (st : LedgerState) :
    Except String JSNum :=
  match CheckInitialized st with
  | .error e => .error e
  | .ok _ =>
    let balanceBytes := aget st.balances ctx.clientID
    if bytesEmpty balanceBytes then
      .error ("the account " ++ ctx.clientID ++ " does not exist")
    else .ok (parseStateInt balanceBytes)

/-- `ClientAccountID(ctx)` (source lines 569–577). -/
def ClientAccountID (ctx : Ctx) (st : LedgerState) : Except String String :=
  match CheckInitialized st with
  | .error e => .error e
  | .ok _ => .ok ctx.clientID

end TokenERC20Contract

/-- Reading back the key just written returns the written value. -/
theorem aget_aput {α : Type} (l : List (String × α)) (k : String) (v : α) :
    aget (aput l k v) k = some v := by
  induction l with
  | nil => simp [aput, aget]
  | cons h t ih =>
    obtain ⟨k', v'⟩ := h
    by_cases hk : k' = k
    · simp [aput, aget, hk]
    · simp [aput, aget, hk, ih]

/-- Writing one key does not change reads of another key. -/
theorem aget_aput_ne {α : Type} (l : List (String × α)) (k k2 : String) (v : α)
    (h : k ≠ k2) : aget (aput l k v) k2 = aget l k2 := by
  induction l with
  | nil => simp [aput, aget, h]
  | cons hd t ih =>
    obtain ⟨k', v'⟩ := hd
    by_cases hk : k' = k
    · subst hk
      simp [aput, aget, h]
    · simp [aput, hk, aget, ih]

/-- Writing back the value already stored leaves the list unchanged. -/
theorem aput_id {α : Type} (l : List (String × α)) (k : String) (v : α)
    (h : aget l k = some v) : aput l k v = l := by
  induction l with
  | nil => simp [aget] at h
  | cons hd t ih =>
    obtain ⟨k', v'⟩ := hd
    by_cases hk : k' = k
    · simp [aget, hk] at h
      simp [aput, hk, h]
    · simp [aget, hk] at h
      simp [aput, hk, ih h]

/-- A second write to the same key overwrites the first. -/
theorem aput_aput {α : Type} (l : List (String × α)) (k : String) (v1 v2 : α) :
    aput (aput l k v1) k v2 = aput l k v2 := by
  induction l with
  | nil => simp [aput]
  | cons hd t ih =>
    obtain ⟨k', v'⟩ := hd
    by_cases hk : k' = k
    · simp [aput, hk]
    · simp [aput, hk, ih]

/-- Pulling an exact addend out of a NaN-propagating sum. -/
theorem jadd_some_right (p q : JSNum) (v : Int) :
    jadd p (jadd q (some v)) = jadd (jadd p q) (some v) := by
  cases p <;> cases q <;> simp [jadd, add_assoc]

/-- Overwriting a numeric balance `b` with `b + v` shifts the NaN-propagating
balance sum by exactly `v`. -/
theorem sumBalances_aput (l : List (String × StoredVal)) (k : String) (b v : Int)
    (h : aget l k = some (.num b)) :
    sumBalances (aput l k (.num (b + v))) = jadd (sumBalances l) (some v) := by
  induction l with
  | nil => simp [aget] at h
  | cons hd t ih =>
    obtain ⟨k', v'⟩ := hd
    by_cases hk : k' = k
    · simp [aget, hk] at h
      subst h
      cases hs : sumBalances t with
      | none => simp [aput, hk, sumBalances, parseStored, hs, jadd]
      | some s =>
        simp [aput, hk, sumBalances, parseStored, hs, jadd]
        ring
    · simp [aget, hk] at h
      simp [aput, hk, sumBalances, ih h, jadd_some_right]

/-- In the exact-integer model the round-trip check of `sub` always passes
on actual numbers. -/
theorem sub_ok (a b : Int) : sub (some a) (some b) = .ok (some (a - b)) := by
  simp [sub, jsub, jadd, jseq]

/-- In the exact-integer model the round-trip check of `add` always passes
on actual numbers. -/
theorem add_ok (a b : Int) : add (some a) (some b) = .ok (some (a + b)) := by
  simp [add, jsub, jadd, jseq]

open TokenERC20Contract

deriving instance DecidableEq for Except

/-- `isErr r`: the invocation threw (its write set is discarded). -/
def isErr {α : Type} : Except String α → Bool
  | .error _ => true
  | .ok _ => false

/-- Administrator context: an Org1MSP client, as `Initialize`/`Mint`/`Burn`
require. -/
def ctxMinter : Ctx := { clientID := "minter-id", mspID := "Org1MSP", time := "t0" }

/-- An ordinary (non-admin) client context. -/
def ctxAlice : Ctx := { clientID := "alice", mspID := "Org2MSP", time := "t1" }

/-- An initialized ledger with no balances, no history and no supply
record (no `Mint` has ever run). -/
def stInitedOnly : LedgerState :=
  { emptyLedger with
    name := some (.raw "Tok"), symbol := some (.raw "TK"),
    decimals := some (.raw "2") }

/-- `Initialize` then `Mint(5)` by the administrator, keeping the final
state. -/
def mintRun : Except String LedgerState :=
  (Initialize ctxMinter emptyLedger "Tok" "TK" "2").bind (fun s1 =>
    (Mint ctxMinter s1 "5").map (fun p => p.1))

/-- The state `mintRun` actually commits. -/
def stAfterMint : LedgerState :=
  { name := some (.raw "Tok"), symbol := some (.raw "TK"),
    decimals := some (.raw "2"), totalSupply := some .promiseStr,
    balances := [("minter-id", .promiseStr)], txData := [] }

/-- C1: the claim says that after each successful operation the stored
TotalSupply equals the sum of all stored balances.  The code violates this
on the very first successful `Mint` from the initialized empty state: the
un-awaited `this.add` calls make `Mint` store the string
`"[object Promise]"` for both the minter balance and the total supply, so
both read back as NaN and the JS equality `parseInt(totalSupply) ===
sum(balances)` is false (`NaN === NaN` is false) — the conservation
invariant does not survive one `Mint`. -/
theorem mint_breaks_conservation :
    mintRun = .ok stAfterMint ∧
    stAfterMint.totalSupply = some .promiseStr ∧
    aget stAfterMint.balances "minter-id" = some .promiseStr ∧
    conservationJS stAfterMint = false := by decide

/-- `Initialize`, `Mint(100)`, `Mint(50)` by the administrator, keeping
the final state and both emitted events. -/
def doubleMintRun : Except String (LedgerState × Event × Event) :=
  (Initialize ctxMinter emptyLedger "Tok" "TK" "2").bind (fun s1 =>
    (Mint ctxMinter s1 "100").bind (fun p1 =>
      (Mint ctxMinter p1.1 "50").map (fun p2 => (p2.1, p1.2, p2.2))))

/-- The state `doubleMintRun` actually commits. -/
def stAfterTwoMints : LedgerState :=
  { name := some (.raw "Tok"), symbol := some (.raw "TK"),
    decimals := some (.raw "2"), totalSupply := some .promiseStr,
    balances := [("minter-id", .promiseStr)], txData := [] }

/-- C2: the claim says `Mint(100)` then `Mint(50)` leaves the minter's
stored balance and the stored TotalSupply at 150 with two `Transfer`
events of values 100 and 50.  The two events are indeed emitted with those
values, but because `this.add` is not awaited the stored balance and
supply are the string `"[object Promise]"`, not 150. -/
theorem double_mint_stores_promise_string :
    doubleMintRun = .ok (stAfterTwoMints,
      { name := "Transfer", «from» := "0x0", «to» := "minter-id", value := some 100 },
      { name := "Transfer", «from» := "0x0", «to» := "minter-id", value := some 50 }) ∧
    aget stAfterTwoMints.balances "minter-id" = some .promiseStr ∧
    stAfterTwoMints.totalSupply = some .promiseStr ∧
    aget stAfterTwoMints.balances "minter-id" ≠ some (.num 150) ∧
    stAfterTwoMints.totalSupply ≠ some (.num 150) := by decide

/-- An initialized ledger where alice holds 5, bob holds 0, and no history
exists yet. -/
def stAliceBob : LedgerState :=
  { name := some (.raw "Tok"), symbol := some (.raw "TK"),
    decimals := some (.raw "2"), totalSupply := some (.num 5),
    balances := [("alice", .num 5), ("bob", .num 0)], txData := [] }

/-- C3: the claim says a successful `Transfer(to, value)` appends one
record `{from: 'admin', to: <destination>, value: <amount>}` to the
destination's history and nothing under the sender's key.  The code does
the opposite: line 196 passes the four arguments
`(ctx, clientAccountID, to, value)` to the three-parameter
`setAdminTransactionData(ctx, to, value)`, so the record lands under the
SENDER's key with `to` = the sender and `value` = the destination address
string; the destination's history stays empty. -/
theorem transfer_history_goes_to_sender :
    Transfer ctxAlice stAliceBob "bob" "3" = .ok
      { name := some (.raw "Tok"), symbol := some (.raw "TK"),
        decimals := some (.raw "2"), totalSupply := some (.num 5),
        balances := [("alice", .num 2), ("bob", .num 3)],
        txData := [("alice",
          [{ «from» := "admin", «to» := "alice", value := "bob", time := "t1" }])] } ∧
    aget [("alice",
      [{ «from» := "admin", «to» := "alice", value := "bob", time := "t1" }])] "bob" =
      (none : Option (List TxRecord)) := by decide

/-- C10: for exactly representable non-negative integers `a`, `b` with
`b > a`, the Arithmetic Guard's `sub(a, b)` succeeds and returns the
negative value `a - b`: only the round-trip identity is checked, and a
mathematically negative result satisfies it, so `sub` never rejects a
result solely for being negative. -/
theorem sub_allows_negative_result (a b : Int) (_ha : 0 ≤ a) (hab : a < b) :
    sub (some a) (some b) = .ok (some (a - b)) ∧ a - b < 0 :=
  ⟨sub_ok a b, by omega⟩

theorem sub_allows_negative_result_witness :
    (0 : Int) ≤ 2 ∧ (2 : Int) < 5 ∧
      (sub (some 2) (some 5) = .ok (some (2 - 5)) ∧ (2 : Int) - 5 < 0) :=
  ⟨by norm_num, by norm_num, sub_allows_negative_result 2 5 (by norm_num) (by norm_num)⟩

/-- C9: `TransferFrom` with `from == to` fails with the self-transfer
rejection for every state and every value — the check is the first thing
the function does. -/
theorem transferFrom_self_rejected (ctx : Ctx) (st : LedgerState) (a value : String) :
    TransferFrom ctx st a a value =
      .error "cannot transfer to and from same client account" := by
  simp [TransferFrom]

/-- C6 counterexample: in an initialized ledger where no total-supply
record was ever written, `TotalSupply` does NOT fail: it returns
`parseInt('')`, i.e. NaN. -/
theorem totalSupply_unminted_returns_nan :
    TotalSupply ctxAlice stInitedOnly = .ok (none : JSNum) := by decide

/-- C6 amended: in any initialized state with no total-supply record,
`TotalSupply` succeeds and returns NaN (`parseInt` of an empty read) —
neither an error nor zero. -/
theorem totalSupply_unminted_nan (ctx : Ctx) (st : LedgerState)
    (hInit : bytesEmpty st.name = false) (hSup : st.totalSupply = none) :
    TotalSupply ctx st = .ok (none : JSNum) := by
  simp [TotalSupply, CheckInitialized, hInit, hSup, parseStateInt]

theorem totalSupply_unminted_nan_witness :
    bytesEmpty stInitedOnly.name = false ∧ stInitedOnly.totalSupply = none ∧
      TotalSupply ctxMinter stInitedOnly = .ok (none : JSNum) :=
  ⟨by decide, by decide, totalSupply_unminted_nan ctxMinter stInitedOnly (by decide) (by decide)⟩

/-- `jlt` on actual numbers reflects `¬ <`. -/
theorem jlt_false {a b : Int} (h : ¬ a < b) : jlt (some a) (some b) = false := by
  simp [jlt, h]

/-- A stored numeric string is never the empty byte array. -/
theorem bytesEmpty_num (n : Int) : bytesEmpty (some (.num n)) = false := rfl

/-- C4: when the destination of `Transfer` is the caller's own account,
the transfer succeeds and the caller ends up with `b + v`: both balance
reads happen before the writes, so the source write of `b - v` and the
destination write of `b + v` hit the same key and the later write wins.
The sum of all stored balances therefore increases by `v` out of thin air. -/
theorem transfer_to_self_inflates_balance (ctx : Ctx) (st : LedgerState)
    (s : String) (v b : Int)
    (hInit : bytesEmpty st.name = false)
    (hv : jsParseInt s = some v) (hv0 : 0 ≤ v)
    (hb : aget st.balances ctx.clientID = some (.num b)) (hvb : v ≤ b) :
    ∃ st', Transfer ctx st ctx.clientID s = .ok st' ∧
      aget st'.balances ctx.clientID = some (.num (b + v)) ∧
      sumBalances st'.balances = jadd (sumBalances st.balances) (some v) := by
  have h1 : jlt (some v) (some 0) = false := jlt_false (by omega)
  have h2 : jlt (some b) (some v) = false := jlt_false (by omega)
  cases htx : aget st.txData ctx.clientID with
  | none =>
    refine ⟨{ st with
      balances := aput st.balances ctx.clientID (.num (b + v)),
      txData := aput st.txData ctx.clientID
        [{ «from» := "admin", «to» := ctx.clientID, value := ctx.clientID, time := ctx.time }] },
      ?_, ?_, ?_⟩
    · simp [Transfer, CheckInitialized, TokenERC20Contract.setAdminTransactionData,
        hInit, hv, h1, h2, hb, htx, bytesEmpty_num, parseStateInt, parseStored,
        sub_ok, add_ok, storeNum, aput_aput]
    · rw [aget_aput]
    · exact sumBalances_aput st.balances ctx.clientID b v hb
  | some l =>
    refine ⟨{ st with
      balances := aput st.balances ctx.clientID (.num (b + v)),
      txData := aput st.txData ctx.clientID
        (l ++ [{ «from» := "admin", «to» := ctx.clientID, value := ctx.clientID, time := ctx.time }]) },
      ?_, ?_, ?_⟩
    · simp [Transfer, CheckInitialized, TokenERC20Contract.setAdminTransactionData,
        hInit, hv, h1, h2, hb, htx, bytesEmpty_num, parseStateInt, parseStored,
        sub_ok, add_ok, storeNum, aput_aput]
    · rw [aget_aput]
    · exact sumBalances_aput st.balances ctx.clientID b v hb

theorem transfer_to_self_inflates_balance_witness :
    bytesEmpty stAliceBob.name = false ∧ jsParseInt "3" = some 3 ∧ (0 : Int) ≤ 3 ∧
    aget stAliceBob.balances ctxAlice.clientID = some (.num 5) ∧ (3 : Int) ≤ 5 ∧
    (∃ st', Transfer ctxAlice stAliceBob ctxAlice.clientID "3" = .ok st' ∧
      aget st'.balances ctxAlice.clientID = some (.num (5 + 3)) ∧
      sumBalances st'.balances = jadd (sumBalances stAliceBob.balances) (some 3)) :=
  ⟨by decide, by decide, by decide, by decide, by decide,
   transfer_to_self_inflates_balance ctxAlice stAliceBob "3" 3 5
     (by decide) (by decide) (by decide) (by decide) (by decide)⟩

/-- C7: `Transfer`/`TransferFrom` with a negative parsed amount fail with
the invalid-amount error (and, the result being an error, the invocation's
write set is discarded — no state change); with amount zero they succeed,
rewrite the same balances unchanged, and still append a history record —
`Transfer` appends it under the caller's own key (see C3), `TransferFrom`
under both the source's and the destination's keys. -/
theorem zero_and_negative_transfers :
    (∀ (ctx : Ctx) (st : LedgerState) (t s : String) (v : Int),
      bytesEmpty st.name = false → jsParseInt s = some v → v < 0 →
      Transfer ctx st t s = .error "transfer amount cannot be negative") ∧
    (∀ (ctx : Ctx) (st : LedgerState) (f t s : String) (v : Int),
      f ≠ t → jsParseInt s = some v → v < 0 →
      TransferFrom ctx st f t s = .error "transfer amount cannot be negative") ∧
    (∀ (ctx : Ctx) (st : LedgerState) (t s : String) (b c : Int),
      bytesEmpty st.name = false → jsParseInt s = some 0 →
      aget st.balances ctx.clientID = some (.num b) → 0 ≤ b →
      aget st.balances t = some (.num c) →
      ∃ st', Transfer ctx st t s = .ok st' ∧
        st'.balances = st.balances ∧
        aget st'.txData ctx.clientID = some ((aget st.txData ctx.clientID).getD [] ++
          [{ «from» := "admin", «to» := ctx.clientID, value := t, time := ctx.time }])) ∧
    (∀ (ctx : Ctx) (st : LedgerState) (f t s : String) (b c : Int),
      f ≠ t → bytesEmpty st.name = false → jsParseInt s = some 0 →
      aget st.balances f = some (.num b) → 0 ≤ b →
      aget st.balances t = some (.num c) →
      ∃ st', TransferFrom ctx st f t s = .ok st' ∧
        st'.balances = st.balances ∧
        aget st'.txData f = some ((aget st.txData f).getD [] ++
          [{ «from» := f, «to» := t, value := s, time := ctx.time }]) ∧
        aget st'.txData t = some ((aget st.txData t).getD [] ++
          [{ «from» := f, «to» := t, value := s, time := ctx.time }])) := by
  refine ⟨?_, ?_, ?_, ?_⟩
  · intro ctx st t s v hInit hv hneg
    have h1 : jlt (some v) (some 0) = true := by simp [jlt, hneg]
    simp [Transfer, CheckInitialized, hInit, hv, h1]
  · intro ctx st f t s v hft hv hneg
    have h1 : jlt (some v) (some 0) = true := by simp [jlt, hneg]
    simp [TransferFrom, hft, hv, h1]
  · intro ctx st t s b c hInit hv hb hb0 hc
    have h1 : jlt (some (0 : Int)) (some 0) = false := jlt_false (by omega)
    have h2 : jlt (some b) (some (0 : Int)) = false := jlt_false (by omega)
    have hsb : sub (some b) (some (0 : Int)) = .ok (some b) := by
      rw [sub_ok]; norm_num
    have hac : add (some c) (some (0 : Int)) = .ok (some c) := by
      rw [add_ok]; norm_num
    cases htx : aget st.txData ctx.clientID with
    | none =>
      refine ⟨{ st with
        txData := aput st.txData ctx.clientID
          [{ «from» := "admin", «to» := ctx.clientID, value := t, time := ctx.time }] },
        ?_, by simp, ?_⟩
      · simp [Transfer, CheckInitialized, TokenERC20Contract.setAdminTransactionData,
          hInit, hv, h1, h2, hb, hc, htx, bytesEmpty_num, parseStateInt, parseStored,
          hsb, hac, storeNum, aput_id st.balances ctx.clientID _ hb, aput_id st.balances t _ hc]
      · rw [aget_aput]; simp [htx]
    | some l =>
      refine ⟨{ st with
        txData := aput st.txData ctx.clientID
          (l ++ [{ «from» := "admin", «to» := ctx.clientID, value := t, time := ctx.time }]) },
        ?_, by simp, ?_⟩
      · simp [Transfer, CheckInitialized, TokenERC20Contract.setAdminTransactionData,
          hInit, hv, h1, h2, hb, hc, htx, bytesEmpty_num, parseStateInt, parseStored,
          hsb, hac, storeNum, aput_id st.balances ctx.clientID _ hb, aput_id st.balances t _ hc]
      · rw [aget_aput]; simp [htx]
  · intro ctx st f t s b c hft hInit hv hb hb0 hc
    have h1 : jlt (some (0 : Int)) (some 0) = false := jlt_false (by omega)
    have h2 : jlt (some b) (some (0 : Int)) = false := jlt_false (by omega)
    have hsb : sub (some b) (some (0 : Int)) = .ok (some b) := by
      rw [sub_ok]; norm_num
    have hac : add (some c) (some (0 : Int)) = .ok (some c) := by
      rw [add_ok]; norm_num
    have htf : t ≠ f := fun h => hft h.symm
    cases htxf : aget st.txData f with
    | none =>
      cases htxt : aget st.txData t with
      | none =>
        refine ⟨{ st with
          txData := aput (aput st.txData f
              [{ «from» := f, «to» := t, value := s, time := ctx.time }]) t
            [{ «from» := f, «to» := t, value := s, time := ctx.time }] },
          ?_, by simp, ?_, ?_⟩
        · simp [TransferFrom, CheckInitialized,
            TokenERC20Contract.setFromTransactionData, TokenERC20Contract.setToTransactionData,
            hft, hInit, hv, h1, h2, hb, hc, htxf, htxt, bytesEmpty_num, parseStateInt, parseStored,
            hsb, hac, storeNum, aput_id st.balances f _ hb, aput_id st.balances t _ hc,
            aget_aput_ne _ _ _ _ hft]
        · rw [aget_aput_ne _ _ _ _ htf, aget_aput]; simp [htxf]
        · rw [aget_aput]; simp [htxt]
      | some lt' =>
        refine ⟨{ st with
          txData := aput (aput st.txData f
              [{ «from» := f, «to» := t, value := s, time := ctx.time }]) t
            (lt' ++ [{ «from» := f, «to» := t, value := s, time := ctx.time }]) },
          ?_, by simp, ?_, ?_⟩
        · simp [TransferFrom, CheckInitialized,
            TokenERC20Contract.setFromTransactionData, TokenERC20Contract.setToTransactionData,
            hft, hInit, hv, h1, h2, hb, hc, htxf, htxt, bytesEmpty_num, parseStateInt, parseStored,
            hsb, hac, storeNum, aput_id st.balances f _ hb, aput_id st.balances t _ hc,
            aget_aput_ne _ _ _ _ hft]
        · rw [aget_aput_ne _ _ _ _ htf, aget_aput]; simp [htxf]
        · rw [aget_aput]; simp [htxt]
    | some lf' =>
      cases htxt : aget st.txData t with
      | none =>
        refine ⟨{ st with
          txData := aput (aput st.txData f
              (lf' ++ [{ «from» := f, «to» := t, value := s, time := ctx.time }])) t
            [{ «from» := f, «to» := t, value := s, time := ctx.time }] },
          ?_, by simp, ?_, ?_⟩
        · simp [TransferFrom, CheckInitialized,
            TokenERC20Contract.setFromTransactionData, TokenERC20Contract.setToTransactionData,
            hft, hInit, hv, h1, h2, hb, hc, htxf, htxt, bytesEmpty_num, parseStateInt, parseStored,
            hsb, hac, storeNum, aput_id st.balances f _ hb, aput_id st.balances t _ hc,
            aget_aput_ne _ _ _ _ hft]
        · rw [aget_aput_ne _ _ _ _ htf, aget_aput]; simp [htxf]
        · rw [aget_aput]; simp [htxt]
      | some lt' =>
        refine ⟨{ st with
          txData := aput (aput st.txData f
              (lf' ++ [{ «from» := f, «to» := t, value := s, time := ctx.time }])) t
            (lt' ++ [{ «from» := f, «to» := t, value := s, time := ctx.time }]) },
          ?_, by simp, ?_, ?_⟩
        · simp [TransferFrom, CheckInitialized,
            TokenERC20Contract.setFromTransactionData, TokenERC20Contract.setToTransactionData,
            hft, hInit, hv, h1, h2, hb, hc, htxf, htxt, bytesEmpty_num, parseStateInt, parseStored,
            hsb, hac, storeNum, aput_id st.balances f _ hb, aput_id st.balances t _ hc,
            aget_aput_ne _ _ _ _ hft]
        · rw [aget_aput_ne _ _ _ _ htf, aget_aput]; simp [htxf]
        · rw [aget_aput]; simp [htxt]

theorem zero_and_negative_transfers_witness :
    (Transfer ctxAlice stAliceBob "bob" "-1" =
      .error "transfer amount cannot be negative") ∧
    (TransferFrom ctxAlice stAliceBob "alice" "bob" "-1" =
      .error "transfer amount cannot be negative") ∧
    (∃ st', Transfer ctxAlice stAliceBob "bob" "0" = .ok st' ∧
      st'.balances = stAliceBob.balances ∧
      aget st'.txData ctxAlice.clientID = some ((aget stAliceBob.txData ctxAlice.clientID).getD [] ++
        [{ «from» := "admin", «to» := ctxAlice.clientID, value := "bob", time := ctxAlice.time }])) ∧
    (∃ st', TransferFrom ctxAlice stAliceBob "alice" "bob" "0" = .ok st' ∧
      st'.balances = stAliceBob.balances ∧
      aget st'.txData "alice" = some ((aget stAliceBob.txData "alice").getD [] ++
        [{ «from» := "alice", «to» := "bob", value := "0", time := ctxAlice.time }]) ∧
      aget st'.txData "bob" = some ((aget stAliceBob.txData "bob").getD [] ++
        [{ «from» := "alice", «to» := "bob", value := "0", time := ctxAlice.time }])) :=
  ⟨zero_and_negative_transfers.1 ctxAlice stAliceBob "bob" "-1" (-1)
     (by decide) (by decide) (by decide),
   zero_and_negative_transfers.2.1 ctxAlice stAliceBob "alice" "bob" "-1" (-1)
     (by decide) (by decide) (by decide),
   zero_and_negative_transfers.2.2.1 ctxAlice stAliceBob "bob" "0" 5 0
     (by decide) (by decide) (by decide) (by decide) (by decide),
   zero_and_negative_transfers.2.2.2 ctxAlice stAliceBob "alice" "bob" "0" 5 0
     (by decide) (by decide) (by decide) (by decide) (by decide) (by decide)⟩

/-- C8: `Transfer`/`TransferFrom` fail with the insufficient-funds error
whenever the (numeric) source balance is below the parsed amount, and with
the no-signup error whenever the source check passes but the destination
has no balance record — the destination is never auto-created.  In both
cases the result is an error, so the invocation's write set is discarded
and no stored state changes. -/
theorem insufficient_and_unsignedup_transfers :
    (∀ (ctx : Ctx) (st : LedgerState) (t s : String) (v b : Int),
      bytesEmpty st.name = false → jsParseInt s = some v → 0 ≤ v →
      aget st.balances ctx.clientID = some (.num b) → b < v →
      Transfer ctx st t s =
        .error ("client account " ++ ctx.clientID ++ " insufficient funds")) ∧
    (∀ (ctx : Ctx) (st : LedgerState) (t s : String) (v b : Int),
      bytesEmpty st.name = false → jsParseInt s = some v → 0 ≤ v →
      aget st.balances ctx.clientID = some (.num b) → v ≤ b →
      bytesEmpty (aget st.balances t) = true →
      Transfer ctx st t s = .error ("client account " ++ t ++ " no signup")) ∧
    (∀ (ctx : Ctx) (st : LedgerState) (f t s : String) (v b : Int),
      f ≠ t → jsParseInt s = some v → 0 ≤ v →
      aget st.balances f = some (.num b) → b < v →
      TransferFrom ctx st f t s =
        .error ("client account " ++ f ++ " insufficient funds")) ∧
    (∀ (ctx : Ctx) (st : LedgerState) (f t s : String) (v b : Int),
      f ≠ t → jsParseInt s = some v → 0 ≤ v →
      aget st.balances f = some (.num b) → v ≤ b →
      bytesEmpty (aget st.balances t) = true →
      TransferFrom ctx st f t s = .error ("client account " ++ t ++ " no signup")) := by
  refine ⟨?_, ?_, ?_, ?_⟩
  · intro ctx st t s v b hInit hv hv0 hb hbv
    have h1 : jlt (some v) (some 0) = false := jlt_false (by omega)
    have h2 : jlt (some b) (some v) = true := by simp [jlt]; omega
    simp [Transfer, CheckInitialized, hInit, hv, h1, h2, hb, bytesEmpty_num,
      parseStateInt, parseStored]
  · intro ctx st t s v b hInit hv hv0 hb hvb hdest
    have h1 : jlt (some v) (some 0) = false := jlt_false (by omega)
    have h2 : jlt (some b) (some v) = false := jlt_false (by omega)
    simp [Transfer, CheckInitialized, hInit, hv, h1, h2, hb, hdest, bytesEmpty_num,
      parseStateInt, parseStored]
  · intro ctx st f t s v b hft hv hv0 hb hbv
    have h1 : jlt (some v) (some 0) = false := jlt_false (by omega)
    have h2 : jlt (some b) (some v) = true := by simp [jlt]; omega
    simp [TransferFrom, hft, hv, h1, h2, hb, bytesEmpty_num,
      parseStateInt, parseStored]
  · intro ctx st f t s v b hft hv hv0 hb hvb hdest
    have h1 : jlt (some v) (some 0) = false := jlt_false (by omega)
    have h2 : jlt (some b) (some v) = false := jlt_false (by omega)
    simp [TransferFrom, hft, hv, h1, h2, hb, hdest, bytesEmpty_num,
      parseStateInt, parseStored]

theorem insufficient_and_unsignedup_transfers_witness :
    (Transfer ctxAlice stAliceBob "bob" "9" =
      .error ("client account " ++ ctxAlice.clientID ++ " insufficient funds")) ∧
    (Transfer ctxAlice stAliceBob "carol" "3" =
      .error ("client account " ++ "carol" ++ " no signup")) ∧
    (TransferFrom ctxAlice stAliceBob "alice" "bob" "9" =
      .error ("client account " ++ "alice" ++ " insufficient funds")) ∧
    (TransferFrom ctxAlice stAliceBob "alice" "carol" "3" =
      .error ("client account " ++ "carol" ++ " no signup")) :=
  ⟨insufficient_and_unsignedup_transfers.1 ctxAlice stAliceBob "bob" "9" 9 5
     (by decide) (by decide) (by decide) (by decide) (by decide),
   insufficient_and_unsignedup_transfers.2.1 ctxAlice stAliceBob "carol" "3" 3 5
     (by decide) (by decide) (by decide) (by decide) (by decide) (by decide),
   insufficient_and_unsignedup_transfers.2.2.1 ctxAlice stAliceBob "alice" "bob" "9" 9 5
     (by decide) (by decide) (by decide) (by decide) (by decide),
   insufficient_and_unsignedup_transfers.2.2.2 ctxAlice stAliceBob "alice" "carol" "3" 3 5
     (by decide) (by decide) (by decide) (by decide) (by decide) (by decide)⟩

/-- C5 counterexample: `TransferFrom` performs no initialization gate of
its own, so invoked on the never-initialized empty ledger it fails with
its source-balance error, not with `NotInitialized`. -/
theorem transferFrom_uninitialized_other_error :
    TransferFrom ctxAlice emptyLedger "a" "b" "1" =
      .error "client account a no balance" ∧
    "client account a no balance" ≠ errNotInitialized := by decide

/-- C5 amended: in any state with no (non-empty) Metadata `name` record,
every public operation other than `Initialize` fails.  All of them except
`TransferFrom` fail with the `NotInitialized` error; `TransferFrom` also
always fails, but with whichever of its own checks fires first (it only
reaches the initialization gate inside the history helpers, after its
structural checks pass). -/
theorem uninitialized_ops_fail :
    (∀ (ctx : Ctx) (st : LedgerState) (a : String), bytesEmpty st.name = true →
      signup ctx st a = .error errNotInitialized) ∧
    (∀ (ctx : Ctx) (st : LedgerState), bytesEmpty st.name = true →
      TokenName ctx st = .error errNotInitialized) ∧
    (∀ (ctx : Ctx) (st : LedgerState), bytesEmpty st.name = true →
      TokenERC20Contract.Symbol ctx st = .error errNotInitialized) ∧
    (∀ (ctx : Ctx) (st : LedgerState), bytesEmpty st.name = true →
      Decimals ctx st = .error errNotInitialized) ∧
    (∀ (ctx : Ctx) (st : LedgerState), bytesEmpty st.name = true →
      TotalSupply ctx st = .error errNotInitialized) ∧
    (∀ (ctx : Ctx) (st : LedgerState) (o : String), bytesEmpty st.name = true →
      BalanceOf ctx st o = .error errNotInitialized) ∧
    (∀ (ctx : Ctx) (st : LedgerState) (t s : String), bytesEmpty st.name = true →
      Transfer ctx st t s = .error errNotInitialized) ∧
    (∀ (ctx : Ctx) (st : LedgerState) (a : String), bytesEmpty st.name = true →
      Mint ctx st a = .error errNotInitialized) ∧
    (∀ (ctx : Ctx) (st : LedgerState) (a : String), bytesEmpty st.name = true →
      Burn ctx st a = .error errNotInitialized) ∧
    (∀ (ctx : Ctx) (st : LedgerState), bytesEmpty st.name = true →
      ClientAccountBalance ctx st = .error errNotInitialized) ∧
    (∀ (ctx : Ctx) (st : LedgerState), bytesEmpty st.name = true →
      ClientAccountID ctx st = .error errNotInitialized) ∧
    (∀ (ctx : Ctx) (st : LedgerState) (a : String), bytesEmpty st.name = true →
      getTransactionData ctx st a = .error errNotInitialized) ∧
    (∀ (ctx : Ctx) (st : LedgerState) (f t s : String), bytesEmpty st.name = true →
      isErr (TransferFrom ctx st f t s) = true) := by
  refine ⟨?_, ?_, ?_, ?_, ?_, ?_, ?_, ?_, ?_, ?_, ?_, ?_, ?_⟩
  · intro ctx st a h; simp [TokenERC20Contract.signup, CheckInitialized, h]
  · intro ctx st h; simp [TokenName, CheckInitialized, h]
  · intro ctx st h; simp [TokenERC20Contract.Symbol, CheckInitialized, h]
  · intro ctx st h; simp [Decimals, CheckInitialized, h]
  · intro ctx st h; simp [TotalSupply, CheckInitialized, h]
  · intro ctx st o h; simp [BalanceOf, CheckInitialized, h]
  · intro ctx st t s h; simp [Transfer, CheckInitialized, h]
  · intro ctx st a h; simp [Mint, CheckInitialized, h]
  · intro ctx st a h; simp [Burn, CheckInitialized, h]
  · intro ctx st h; simp [ClientAccountBalance, CheckInitialized, h]
  · intro ctx st h; simp [ClientAccountID, CheckInitialized, h]
  · intro ctx st a h; simp [TokenERC20Contract.getTransactionData, CheckInitialized, h]
  · intro ctx st f t s h
    by_cases hft : f = t
    · simp [TransferFrom, hft, isErr]
    · rw [TransferFrom, if_neg hft]
      simp only [TokenERC20Contract.setFromTransactionData, CheckInitialized, isErr, h]
      split
      · rfl
      · rename_i a heq
        repeat' split at heq
        all_goals simp_all

theorem uninitialized_ops_fail_witness :
    (signup ctxAlice emptyLedger "x" = .error errNotInitialized) ∧
    (TokenName ctxAlice emptyLedger = .error errNotInitialized) ∧
    (TokenERC20Contract.Symbol ctxAlice emptyLedger = .error errNotInitialized) ∧
    (Decimals ctxAlice emptyLedger = .error errNotInitialized) ∧
    (TotalSupply ctxAlice emptyLedger = .error errNotInitialized) ∧
    (BalanceOf ctxAlice emptyLedger "x" = .error errNotInitialized) ∧
    (Transfer ctxAlice emptyLedger "x" "1" = .error errNotInitialized) ∧
    (Mint ctxAlice emptyLedger "1" = .error errNotInitialized) ∧
    (Burn ctxAlice emptyLedger "1" = .error errNotInitialized) ∧
    (ClientAccountBalance ctxAlice emptyLedger = .error errNotInitialized) ∧
    (ClientAccountID ctxAlice emptyLedger = .error errNotInitialized) ∧
    (getTransactionData ctxAlice emptyLedger "x" = .error errNotInitialized) ∧
    (isErr (TransferFrom ctxAlice emptyLedger "a" "b" "1") = true) :=
  ⟨uninitialized_ops_fail.1 ctxAlice emptyLedger "x" (by decide),
   uninitialized_ops_fail.2.1 ctxAlice emptyLedger (by decide),
   uninitialized_ops_fail.2.2.1 ctxAlice emptyLedger (by decide),
   uninitialized_ops_fail.2.2.2.1 ctxAlice emptyLedger (by decide),
   uninitialized_ops_fail.2.2.2.2.1 ctxAlice emptyLedger (by decide),
   uninitialized_ops_fail.2.2.2.2.2.1 ctxAlice emptyLedger "x" (by decide),
   uninitialized_ops_fail.2.2.2.2.2.2.1 ctxAlice emptyLedger "x" "1" (by decide),
   uninitialized_ops_fail.2.2.2.2.2.2.2.1 ctxAlice emptyLedger "1" (by decide),
   uninitialized_ops_fail.2.2.2.2.2.2.2.2.1 ctxAlice emptyLedger "1" (by decide),
   uninitialized_ops_fail.2.2.2.2.2.2.2.2.2.1 ctxAlice emptyLedger (by decide),
   uninitialized_ops_fail.2.2.2.2.2.2.2.2.2.2.1 ctxAlice emptyLedger (by decide),
   uninitialized_ops_fail.2.2.2.2.2.2.2.2.2.2.2.1 ctxAlice emptyLedger "x" (by decide),
   uninitialized_ops_fail.2.2.2.2.2.2.2.2.2.2.2.2 ctxAlice emptyLedger "a" "b" "1" (by decide)⟩
